import Mathlib

/-!
# Verification of the VMEncryption precheck engine

Shallow embedding of `src/VMEncryption/main/check_util.py` (class `CheckUtil`),
the pre-flight validation engine that gates a disk-encryption-enable workflow.

Modelling conventions:
* Python `dict.get(key)` on the public settings is a structure of `Option String`
  fields (`none` = key absent).
* A Python `raise Exception(msg)` is `Except.error (PyErr.exc msg)`; a
  `RuntimeError` is `PyErr.runtimeError`; calling `.lower()` on `None` is the
  untyped `PyErr.attributeError` the Python runtime would raise.
* Ambient OS queries (shell-outs via `os.system` / `os.popen`, `/proc` reads,
  path existence) are injected capabilities collected in `SysEnv`, per the
  spec's port model; the static `SupportedOS.json` resource is an explicit
  association-list argument.
* `self.logger.log(...)` calls are collected in a `List String` log component;
  validators return `List String × Except PyErr Unit`.
-/

namespace CheckUtil

/-- Errors a validator can surface.  `exc` is Python `Exception(msg)` (the typed
precheck failures all use it), `runtimeError` is `RuntimeError`, and
`attributeError` is the untyped `AttributeError` raised by `None.lower()`. -/
inductive PyErr where
  | exc (msg : String)
  | runtimeError (msg : String)
  | attributeError (msg : String)
deriving DecidableEq, Repr

/-- Message of the `AttributeError` raised when `.lower()` is called on `None`
(Python: NoneType object has no attribute lower). -/
def noneLowerMsg : String := "AttributeError: NoneType object has no attribute lower"

namespace CommonVariables

/-- Modelled from the spec: `CommonVariables.py` is not under `src/`; spec section 6
fixes `EncryptionOperation` values `EnableEncryption`, `EnableEncryptionFormat`,
`EnableEncryptionFormatAll`, `QueryEncryptionStatus`. -/
def EnableEncryption : String := "EnableEncryption"

/-- Modelled from the spec: spec section 6, an enable operation value. -/
def EnableEncryptionFormat : String := "EnableEncryptionFormat"

/-- Modelled from the spec: spec section 6, an enable operation value. -/
def EnableEncryptionFormatAll : String := "EnableEncryptionFormatAll"

/-- Modelled from the spec: spec section 6, the query operation value. -/
def QueryEncryptionStatus : String := "QueryEncryptionStatus"

/-- Modelled from the spec: spec section 6, `VolumeType` is in {OS, Data, All}. -/
def SupportedVolumeTypes : List String := ["OS", "Data", "All"]

/-- Modelled from the spec: the Data volume type constant. -/
def VolumeTypeData : String := "Data"

/-- Modelled from the spec: the fixed KEK algorithm set (spec section 6, a fixed
set matched case-insensitively; exact members do not decide any claim). -/
def encryption_algorithms : List String := ["RSA-OAEP", "RSA-OAEP-256", "RSA1_5"]

/-- Modelled from the spec: the default KEK algorithm named in the log line of
`validate_key_vault_params`. -/
def default_encryption_algorithm : String := "RSA-OAEP"

/-- Modelled from the spec: the settings key name used in the AAD error text. -/
def AADClientIDKey : String := "AADClientID"

end CommonVariables

/-- The requested configuration: `public_settings.get(<key>)` per key of spec
section 6; `none` models an absent key. -/
structure PublicSettings where
  encryptionOperation : Option String := none
  volumeType : Option String := none
  keyVaultURL : Option String := none
  keyEncryptionKeyURL : Option String := none
  keyEncryptionAlgorithm : Option String := none
  aadClientID : Option String := none
deriving DecidableEq, Repr

/-- Per-volume-class encryption state, the `encryption_status` dict with keys
"os" and "data". -/
structure EncryptionStatus where
  os : String := "NotEncrypted"
  data : String := "NotEncrypted"
deriving DecidableEq, Repr

/-- The distro-identification collaborator: `DistroPatcher.distro_info[0]`,
`distro_info[1]` and `kernel_version`. -/
structure DistroPatcher where
  distro_name : String
  distro_version : String
  kernel_version : String
deriving DecidableEq, Repr

/-- Injected OS capabilities (spec section 9: shell-outs, memory reads and mount
enumeration are ports).  `rootIsLvm` is the `lsblk`/`grep` probe for a root LVM
mount, `lvPresent` the per-name `lsblk | grep` probe, `vfatLoadable` the
`modprobe vfat` outcome, `memTotalKb` the `/proc/meminfo` MemTotal read,
`isDir`/`isFile` path-existence probes, and `mounts` the mountpoint column of
`/proc/mounts`. -/
structure SysEnv where
  rootIsLvm : Bool := false
  lvPresent : String → Bool := fun _ => false
  vfatLoadable : Bool := true
  memTotalKb : Nat := 8000000
  isDir : String → Bool := fun _ => false
  isFile : String → Bool := fun _ => false
  mounts : List String := []

/-- Decidable equality for `Except`, so concrete validator outcomes can be
settled by `decide`. -/
instance {ε α : Type} [DecidableEq ε] [DecidableEq α] : DecidableEq (Except ε α)
  | .error a, .error b =>
    if h : a = b then .isTrue (congrArg Except.error h)
    else .isFalse (fun he => h (Except.error.inj he))
  | .error _, .ok _ => .isFalse (fun he => Except.noConfusion he)
  | .ok _, .error _ => .isFalse (fun he => Except.noConfusion he)
  | .ok a, .ok b =>
    if h : a = b then .isTrue (congrArg Except.ok h)
    else .isFalse (fun he => h (Except.ok.inj he))

/-- A validator's outcome: the log lines it emitted and its result. -/
abbrev CheckResult := List String × Except PyErr Unit

/-- ASCII lowering of one character, as Python `str.lower` acts on the ASCII
range the checked values use. -/
def lowerChar (c : Char) : Char :=
  if 'A' ≤ c ∧ c ≤ 'Z' then Char.ofNat (c.toNat + 32) else c

/-- Python `s.lower()` (executable over the character list, so the kernel can
evaluate concrete instances). -/
def strLower (s : String) : String := String.mk (s.data.map lowerChar)

/-- `leadsWith p cs` : the character list `cs` starts with `p` (the raw
string-prefix test under Python `str.startswith`). -/
def leadsWith : List Char → List Char → Bool
  | [], _ => true
  | _ :: _, [] => false
  | a :: as, b :: bs => a == b && leadsWith as bs

/-- Python `s.startswith(p)`. -/
def strStartsWith (s p : String) : Bool := leadsWith p.data s.data

/-- `containsSub needle hay` : `needle` occurs as a contiguous run inside
`hay` (Python `needle in hay` on strings). -/
def containsSub (needle : List Char) : List Char → Bool
  | [] => leadsWith needle []
  | c :: rest => leadsWith needle (c :: rest) || containsSub needle rest

/-- Split a character list at the first occurrence of a separator run:
`(before, after)` without the separator, or `none` when it does not occur. -/
def splitFirstOn (sep : List Char) : List Char → Option (List Char × List Char)
  | [] => if sep == [] then some ([], []) else none
  | c :: rest =>
    if leadsWith sep (c :: rest) then some ([], (c :: rest).drop sep.length)
    else
      match splitFirstOn sep rest with
      | some (pre, post) => some (c :: pre, post)
      | none => none

/-- Python truthiness of an optional string: `None` and `""` are falsy. -/
def truthy : Option String → Bool
  | none => false
  | some s => s != ""

/-- Python `in [EnableEncryption, EnableEncryptionFormat, EnableEncryptionFormatAll]`
on the optional operation value (`None` is in no list). -/
def isEnableOperation (eop : Option String) : Bool :=
  eop == some CommonVariables.EnableEncryption ||
  eop == some CommonVariables.EnableEncryptionFormat ||
  eop == some CommonVariables.EnableEncryptionFormatAll

/-- `value.lower()` on an optional string: raises `AttributeError` on `None`. -/
def pyLower : Option String → Except PyErr String
  | none => .error (.attributeError noneLowerMsg)
  | some s => .ok (strLower s)

/-- The two fields of Python `urlparse` that `check_kv_url` reads.  External
stdlib collaborator, modelled shallowly: the scheme is the text before the
first "://" and the netloc the host text after it, up to a path, query or
fragment delimiter; a URL with no "://" yields empty scheme and netloc. -/
structure ParseResult where
  scheme : String
  netloc : String
deriving DecidableEq, Repr

/-- Shallow model of Python `urlparse.urlparse` restricted to `scheme` and
`netloc` (see `ParseResult`). -/
def urlparse (url : String) : ParseResult :=
  match splitFirstOn "://".data url.data with
  | none => { scheme := "", netloc := "" }
  | some (pre, post) =>
    { scheme := String.mk pre
      netloc := String.mk (post.takeWhile (fun c => c != '/' && c != '?' && c != '#')) }

/-- `CheckUtil.check_kv_url`: basic sanity check of a key vault URL.  Fails when
the URL is absent, has a scheme other than https (case-insensitive), or has no
host component. -/
def check_kv_url (test_url : Option String) (message : String) : Except PyErr Unit :=
  match test_url with
  | none => .error (.exc (message ++ "\nNo URL supplied"))
  | some u =>
    let parse_result := urlparse u
    if !(strLower parse_result.scheme == "https") then
      .error (.exc ("\n" ++ message ++ "\n URL should be https: " ++ u ++ "\n"))
    else if parse_result.netloc == "" then
      .error (.exc (message ++ "\nMalformed URL: " ++ u))
    else
      .ok ()

/-- `CheckUtil.validate_key_vault_params`: a no-op unless the operation is an
enable operation; validates the vault URL, and when a KEK URL is truthy also
validates it and checks the KEK algorithm against the fixed set
(case-insensitive), raising when an unrecognized algorithm is truthy and
logging the default-algorithm line when it is absent. -/
def validate_key_vault_params (ps : PublicSettings) : CheckResult :=
  if !(isEnableOperation ps.encryptionOperation) then
    ([], .ok ())
  else
    match check_kv_url ps.keyVaultURL "Encountered an error while checking the Key Vault URL" with
    | .error e => ([], .error e)
    | .ok () =>
      if truthy ps.keyEncryptionKeyURL then
        match check_kv_url ps.keyEncryptionKeyURL "A KEK URL was specified, but was invalid" with
        | .error e => ([], .error e)
        | .ok () =>
          if ps.keyEncryptionAlgorithm == none
              || !((CommonVariables.encryption_algorithms.map strLower).contains
                    (strLower (ps.keyEncryptionAlgorithm.getD ""))) then
            if truthy ps.keyEncryptionAlgorithm then
              ([], .error (.exc "The KEK encryption algorithm requested was not recognized"))
            else
              (["No KEK algorithm specified will default to "
                  ++ CommonVariables.default_encryption_algorithm], .ok ())
          else ([], .ok ())
      else ([], .ok ())

/-- `CheckUtil.validate_volume_type`: a no-op (with a log line) for the
query-status operation; otherwise lowercases the volume type (raising
`AttributeError` when the key is absent) and fails unless it is in the
supported set case-insensitively.  The Python list formatting of the supported
set in the message is elided to a fixed rendering. -/
def validate_volume_type (ps : PublicSettings) : CheckResult :=
  if ps.encryptionOperation == some CommonVariables.QueryEncryptionStatus then
    (["Ignore validating volume type for " ++ CommonVariables.QueryEncryptionStatus], .ok ())
  else
    match ps.volumeType with
    | none => ([], .error (.attributeError noneLowerMsg))
    | some volume_type =>
      if (CommonVariables.SupportedVolumeTypes.map strLower).contains (strLower volume_type) then
        ([], .ok ())
      else
        ([], .error (.exc ("Unknown Volume Type: " ++ volume_type
            ++ ", has to be one of [OS, Data, All]")))

/-- The six logical-volume names `validate_lvm_os` requires (source local
`lvlist`; a swap volume is intentionally not required). -/
def lvlist : List String :=
  ["rootvg-tmplv", "rootvg-usrlv", "rootvg-optlv", "rootvg-homelv",
   "rootvg-varlv", "rootvg-rootlv"]

/-- `CheckUtil.validate_lvm_os`: skipped (with a log line) when the encryption
operation is falsy or query-status, or the volume type is falsy or Data;
otherwise, when the root filesystem is on an LVM logical volume, logs a line
for every required logical volume that is absent and raises a fixed generic
exception when any is absent. -/
def validate_lvm_os (ps : PublicSettings) (env : SysEnv) : CheckResult :=
  match ps.encryptionOperation with
  | none => (["LVM OS validation skipped (no encryption operation)"], .ok ())
  | some encryption_operation =>
    if encryption_operation == "" then
      (["LVM OS validation skipped (no encryption operation)"], .ok ())
    else if strLower encryption_operation == strLower CommonVariables.QueryEncryptionStatus then
      (["LVM OS validation skipped (Encryption Operation: QueryEncryptionStatus)"], .ok ())
    else
      match ps.volumeType with
      | none => (["LVM OS validation skipped (no volume type)"], .ok ())
      | some volume_type =>
        if volume_type == "" then
          (["LVM OS validation skipped (no volume type)"], .ok ())
        else if strLower volume_type == strLower CommonVariables.VolumeTypeData then
          (["LVM OS validation skipped (Volume Type: DATA)"], .ok ())
        else if env.rootIsLvm then
          let missing := lvlist.filter (fun lvname => !(env.lvPresent lvname))
          if !missing.isEmpty then
            (missing.map (fun lvname => "LVM OS scheme is missing LV [" ++ lvname ++ "]"),
             .error (.exc "LVM OS disk layout does not satisfy prerequisites ( see https://aka.ms/adelvm )"))
          else ([], .ok ())
        else ([], .ok ())

/-- `CheckUtil.validate_vfat`: probes that the vfat kernel module can be loaded
(`modprobe vfat` through the command-execution capability) and raises
`RuntimeError` when it cannot. -/
def validate_vfat (env : SysEnv) : Except PyErr Unit :=
  if env.vfatLoadable then .ok ()
  else .error (.runtimeError "Incompatible system, prerequisite vfat module was not found.")

/-- A character the UUID regex class `[0-9a-f]` accepts under `re.IGNORECASE`. -/
def isHexDigitCI (c : Char) : Bool :=
  ('0' ≤ c && c ≤ '9') || ('a' ≤ c && c ≤ 'f') || ('A' ≤ c && c ≤ 'F')

/-- Consume exactly `n` hex characters, returning the rest of the input. -/
def hexRun : Nat → List Char → Option (List Char)
  | 0, cs => some cs
  | _ + 1, [] => none
  | n + 1, c :: cs => if isHexDigitCI c then hexRun n cs else none

/-- Match dash-separated hex groups of the given sizes against the whole
input. -/
def matchGroups : List Nat → List Char → Bool
  | [], cs => cs == []
  | [n], cs => hexRun n cs == some []
  | n :: m :: rest, cs =>
    match hexRun n cs with
    | some (c :: cs2) => c == '-' && matchGroups (m :: rest) cs2
    | _ => false

/-- The anchored UUID regex of `validate_aad`
(`^([0-9a-f]{8}-[0-9a-f]{4}-[0-9a-f]{4}-[0-9a-f]{4}-[0-9a-f]{12}){1}$` with
`re.IGNORECASE`): five dash-separated hex groups of sizes 8-4-4-4-12 spanning
the whole string. -/
def matchesUuidPattern (s : String) : Bool := matchGroups [8, 4, 4, 4, 12] s.data

/-- U+201C, the left curly quotation mark the AAD hint looks for. -/
def leftCurlyQuote : Char := Char.ofNat 0x201c

/-- U+201D, the right curly quotation mark the AAD hint looks for. -/
def rightCurlyQuote : Char := Char.ofNat 0x201d

/-- `CheckUtil.validate_aad`: a no-op unless the operation is an enable
operation; requires a truthy `AADClientID` matching the canonical UUID pattern,
appending a Unicode-quotation-mark hint to the failure message when the value
contains a curly quote. -/
def validate_aad (ps : PublicSettings) : Except PyErr Unit :=
  if !(isEnableOperation ps.encryptionOperation) then .ok ()
  else if truthy ps.aadClientID then
    let aad_client_id := ps.aadClientID.getD ""
    if !(matchesUuidPattern aad_client_id) then
      let message := "AADClientID value is missing or invalid."
      let message :=
        if aad_client_id.data.contains leftCurlyQuote
            || aad_client_id.data.contains rightCurlyQuote then
          message ++ " Please remove Unicode quotation marks."
        else message
      .error (.exc (message ++ "\nActual Value: [" ++ aad_client_id
        ++ "]\nExpected Format: [nnnnnnnn-nnnn-nnnn-nnnn-nnnnnnnnnnnn]"))
    else .ok ()
  else .error (.exc (CommonVariables.AADClientIDKey ++ " property was not found in settings"))

/-- `CheckUtil.is_insufficient_memory`: reads MemTotal (kilobytes) through the
memory capability and warns when it is below the fixed 7000000 kb minimum. -/
def is_insufficient_memory (env : SysEnv) : List String × Bool :=
  let minsize := 7000000
  let memtotal := env.memTotalKb
  if memtotal < minsize then
    (["WARNING: total memory [" ++ toString memtotal ++ "kb] is less than 7GB"], true)
  else ([], false)

/-- `CheckUtil.validate_memory_os_encryption`: for an enable operation whose
volume type is not Data (lowercased; `AttributeError` when the key is absent)
and whose OS volume is NotEncrypted, requires sufficient memory. -/
def validate_memory_os_encryption (ps : PublicSettings)
    (encryption_status : EncryptionStatus) (env : SysEnv) : CheckResult :=
  let is_enable_operation := isEnableOperation ps.encryptionOperation
  if is_enable_operation then
    match ps.volumeType with
    | none => ([], .error (.attributeError noneLowerMsg))
    | some volume_type =>
      if !(strLower volume_type == strLower CommonVariables.VolumeTypeData)
          && encryption_status.os == "NotEncrypted" then
        let r := is_insufficient_memory env
        if r.2 then
          (r.1, .error (.exc "Not enough memory for enabling encryption on OS volume. 8 GB memory is recommended."))
        else (r.1, .ok ())
      else ([], .ok ())
  else ([], .ok ())

/-- Directory footprints `is_app_compat_issue_detected` probes. -/
def app_compat_dirs : List String := ["./usr/sap"]

/-- File footprints `is_app_compat_issue_detected` probes. -/
def app_compat_files : List String :=
  ["/etc/init.d/mongodb", "/etc/init.d/cassandra", "/etc/init.d/docker",
   "/opt/Symantec/symantec_antivirus"]

/-- `CheckUtil.is_app_compat_issue_detected`: warns for each known
incompatible-software path that exists; detected when any does. -/
def is_app_compat_issue_detected (env : SysEnv) : List String × Bool :=
  let hitDirs := app_compat_dirs.filter env.isDir
  let hitFiles := app_compat_files.filter env.isFile
  ((hitDirs ++ hitFiles).map (fun p => "WARNING: likely app compat issue [" ++ p ++ "]"),
   !hitDirs.isEmpty || !hitFiles.isEmpty)

/-- The fixed system-path ignore list of `is_unsupported_mount_scheme`
(source local `ignorelist`). -/
def ignorelist : List String := ["/", "/dev", "/proc", "/run", "/sys", "/sys/fs/cgroup"]

/-- `CheckUtil.is_unsupported_mount_scheme`: over the mount table with the
ignore list removed, warns for every ordered pair of distinct mount points
`(mnt1, mnt2)` where `mnt2` starts with the literal string `mnt1`; detected
when any pair conflicts. -/
def is_unsupported_mount_scheme (env : SysEnv) : List String × Bool :=
  let mounts := env.mounts.filter (fun m => !(ignorelist.contains m))
  let conflicts := mounts.flatMap (fun mnt1 =>
    (mounts.filter (fun mnt2 => mnt1 != mnt2 && strStartsWith mnt2 mnt1)).map
      (fun mnt2 => "WARNING: unsupported mount scheme [" ++ mnt1 ++ " " ++ mnt2 ++ "]"))
  (conflicts, !conflicts.isEmpty)

/-- One component of a `distutils` LooseVersion: a digit run (numeric) or a
lowercase-letter run. -/
inductive LooseComp where
  | num (n : Nat)
  | str (s : String)
deriving DecidableEq, Repr

/-- ASCII digit test. -/
def isAsciiDigit (c : Char) : Bool := '0' ≤ c && c ≤ '9'

/-- ASCII lowercase-letter test. -/
def isLowerAlpha (c : Char) : Bool := 'a' ≤ c && c ≤ 'z'

/-- Value of a run of decimal digits. -/
def digitsToNat (ds : List Char) : Nat :=
  ds.foldl (fun acc c => acc * 10 + (c.toNat - '0'.toNat)) 0

/-- Run-splitting worker for `looseParseChars`, structurally recursive on a
fuel bound so the kernel can evaluate it; every step consumes at least one
character, so fuel equal to the input length is never exhausted. -/
def looseParseAux : Nat → List Char → List LooseComp
  | 0, _ => []
  | _ + 1, [] => []
  | fuel + 1, c :: rest =>
    if isAsciiDigit c then
      .num (digitsToNat (c :: rest.takeWhile isAsciiDigit))
        :: looseParseAux fuel (rest.dropWhile isAsciiDigit)
    else if isLowerAlpha c then
      .str (String.mk (c :: rest.takeWhile isLowerAlpha))
        :: looseParseAux fuel (rest.dropWhile isLowerAlpha)
    else looseParseAux fuel rest

/-- Component split of `distutils.version.LooseVersion`: maximal digit runs
become numbers, maximal lowercase-letter runs become strings, dots and other
characters only separate runs.  External stdlib collaborator, modelled
shallowly. -/
def looseParseChars (cs : List Char) : List LooseComp := looseParseAux cs.length cs

/-- Strict lexicographic order on character lists (how Python 2 compares the
string components, and the contrast order for the numeric claim). -/
def lexLtChars : List Char → List Char → Bool
  | [], [] => false
  | [], _ :: _ => true
  | _ :: _, [] => false
  | a :: as, b :: bs => a < b || (a == b && lexLtChars as bs)

/-- Python 2 comparison of two LooseVersion components: numbers numerically,
strings lexicographically, and a number sorts before a string (Python 2
cross-type ordering by type name). -/
def looseCompLt : LooseComp → LooseComp → Bool
  | .num a, .num b => decide (a < b)
  | .str a, .str b => lexLtChars a.data b.data
  | .num _, .str _ => true
  | .str _, .num _ => false

/-- Python 2 list comparison of component lists (elementwise, a strict prefix
sorts first). -/
def looseListLt : List LooseComp → List LooseComp → Bool
  | [], [] => false
  | [], _ :: _ => true
  | _ :: _, [] => false
  | a :: as, b :: bs => looseCompLt a b || (a == b && looseListLt as bs)

/-- `LooseVersion(v1) < LooseVersion(v2)`, as `is_supported_os` compares the
running kernel against a matrix entry's Kernel minimum. -/
def looseVersionLt (v1 v2 : String) : Bool :=
  looseListLt (looseParseChars v1.data) (looseParseChars v2.data)

/-- One entry of the static `SupportedOS.json` matrix: a version-prefix string
and an optional minimum kernel version. -/
structure VersionEntry where
  Version : String
  Kernel : Option String := none
deriving DecidableEq, Repr

/-- The static matrix: distro name to ordered entry list (spec section 9 models
the resource as an explicitly constructed immutable lookup table). -/
abbrev SupportedOSData := List (String × List VersionEntry)

/-- `CheckUtil.is_supported_os`: skipped for query-status, Data volume type, or
an already-encrypted OS volume; otherwise looks the distro up in the matrix and
takes the first entry whose version-prefix starts the running version,
failing on its Kernel minimum when the running kernel is below it; fails with
the unsupported-distro message when the name is absent or no entry matches. -/
def is_supported_os (ps : PublicSettings) (dp : DistroPatcher)
    (encryption_status : EncryptionStatus) (data : SupportedOSData) : CheckResult :=
  if ps.encryptionOperation == some CommonVariables.QueryEncryptionStatus then
    (["Query encryption operation detected. Skipping OS encryption validation check."], .ok ())
  else
    match ps.volumeType with
    | none => ([], .error (.attributeError noneLowerMsg))
    | some volume_type =>
      if strLower volume_type == strLower CommonVariables.VolumeTypeData then
        (["Volume Type is DATA. Skipping OS encryption validation check."], .ok ())
      else if encryption_status.os != "NotEncrypted" then
        (["OS volume already encrypted. Skipping OS encryption validation check."], .ok ())
      else
        match List.lookup dp.distro_name data with
        | some versions =>
          match versions.find? (fun version => strStartsWith dp.distro_version version.Version) with
          | some version =>
            match version.Kernel with
            | some kmin =>
              if looseVersionLt dp.kernel_version kmin then
                ([], .error (.exc ("Kernel version " ++ dp.kernel_version
                  ++ " is not supported. Upgrade to kernel version " ++ kmin)))
              else ([], .ok ())
            | none => ([], .ok ())
          | none =>
            ([], .error (.exc ("Distro " ++ dp.distro_name ++ " " ++ dp.distro_version
              ++ " is not supported for OS encryption")))
        | none =>
          ([], .error (.exc ("Distro " ++ dp.distro_name ++ " " ++ dp.distro_version
            ++ " is not supported for OS encryption")))

/-- The seven validators of the fatal sequence, in source order. -/
inductive FatalStep where
  | keyVault | volumeType | lvm | vfat | aad | memory | osSupport
deriving DecidableEq, Repr

/-- The fixed order of `precheck_for_fatal_failures`. -/
def fatalOrder : List FatalStep :=
  [.keyVault, .volumeType, .lvm, .vfat, .aad, .memory, .osSupport]

/-- `CheckUtil.precheck_for_fatal_failures`: the straight-line sequence of the
seven fatal validators; a raise stops the sequence.  Instrumented with the list
of validators reached, in order; logs of the individual validators are elided
here (only their results propagate). -/
def precheck_for_fatal_failures (ps : PublicSettings)
    (encryption_status : EncryptionStatus) (dp : DistroPatcher) (env : SysEnv)
    (data : SupportedOSData) : List FatalStep × Except PyErr Unit :=
  match (validate_key_vault_params ps).2 with
  | .error e => ([.keyVault], .error e)
  | .ok _ =>
    match (validate_volume_type ps).2 with
    | .error e => ([.keyVault, .volumeType], .error e)
    | .ok _ =>
      match (validate_lvm_os ps env).2 with
      | .error e => ([.keyVault, .volumeType, .lvm], .error e)
      | .ok _ =>
        match validate_vfat env with
        | .error e => ([.keyVault, .volumeType, .lvm, .vfat], .error e)
        | .ok _ =>
          match validate_aad ps with
          | .error e => ([.keyVault, .volumeType, .lvm, .vfat, .aad], .error e)
          | .ok _ =>
            match (validate_memory_os_encryption ps encryption_status env).2 with
            | .error e => ([.keyVault, .volumeType, .lvm, .vfat, .aad, .memory], .error e)
            | .ok _ =>
              match (is_supported_os ps dp encryption_status data).2 with
              | .error e => (fatalOrder, .error e)
              | .ok _ => (fatalOrder, .ok ())

/-- The three non-fatal checks, in source order. -/
inductive NonfatalCheck where
  | appCompat | memory | mountScheme
deriving DecidableEq, Repr

/-- `CheckUtil.is_non_fatal_precheck_failure`: runs the three non-fatal checks
unconditionally (three separate `if` statements over a `detected` flag, no
short-circuit between them) and reports whether any fired; it returns a
boolean and never raises.  Instrumented with the list of checks evaluated. -/
def is_non_fatal_precheck_failure (env : SysEnv) : List NonfatalCheck × Bool :=
  let r1 := (is_app_compat_issue_detected env).2
  let r2 := (is_insufficient_memory env).2
  let r3 := (is_unsupported_mount_scheme env).2
  ([.appCompat, .memory, .mountScheme], r1 || r2 || r3)

end CheckUtil

namespace CheckUtil

/-! ## Helper lemmas -/

/-- An enable operation is not the query-status operation. -/
theorem enable_not_query (eop : Option String)
    (h : isEnableOperation eop = true) :
    (eop == some CommonVariables.QueryEncryptionStatus) = false := by
  match eop with
  | none => simp [isEnableOperation] at h
  | some s =>
    simp only [isEnableOperation, Bool.or_eq_true, beq_iff_eq, Option.some.injEq] at h
    rcases h with (h | h) | h <;> subst h <;> decide

/-- The first-match equation for `List.find?` on an explicit decomposition. -/
theorem find?_first_match {α : Type} (p : α → Bool) (pre : List α) (entry : α)
    (post : List α) (hpre : ∀ v ∈ pre, p v = false) (he : p entry = true) :
    (pre ++ entry :: post).find? p = some entry := by
  induction pre with
  | nil => simp [List.find?, he]
  | cons a as ih =>
    have ha : p a = false := hpre a (by simp)
    simp only [List.cons_append, List.find?, ha]
    exact ih (fun v hv => hpre v (by simp [hv]))

/-- `List.find?` finds nothing when the predicate holds nowhere. -/
theorem find?_all_false {α : Type} (p : α → Bool) (l : List α)
    (h : ∀ v ∈ l, p v = false) : l.find? p = none := by
  induction l with
  | nil => rfl
  | cons a as ih =>
    have ha : p a = false := h a (by simp)
    simp only [List.find?, ha]
    exact ih (fun v hv => h v (by simp [hv]))

/-- Every character consumed by `hexRun` is a hex digit (the rest is returned
unchanged). -/
theorem hexRun_chars (n : Nat) (cs rest : List Char)
    (h : hexRun n cs = some rest) :
    ∀ c ∈ cs, isHexDigitCI c = true ∨ c ∈ rest := by
  induction n generalizing cs with
  | zero =>
    simp only [hexRun, Option.some.injEq] at h
    subst h
    exact fun c hc => Or.inr hc
  | succ m ih =>
    match cs with
    | [] => simp [hexRun] at h
    | c :: cs' =>
      simp only [hexRun] at h
      by_cases hc : isHexDigitCI c
      · simp only [hc, if_true] at h
        intro d hd
        rcases List.mem_cons.mp hd with rfl | hd'
        · exact Or.inl hc
        · exact ih cs' h d hd'
      · simp [hc] at h

/-- Every character of a string accepted by the UUID group matcher is a hex
digit or a dash. -/
theorem matchGroups_chars (gs : List Nat) (cs : List Char)
    (h : matchGroups gs cs = true) :
    ∀ c ∈ cs, isHexDigitCI c = true ∨ c = '-' := by
  induction gs generalizing cs with
  | nil =>
    simp only [matchGroups, beq_iff_eq] at h
    subst h
    simp
  | cons n gs' ih =>
    match gs' with
    | [] =>
      simp only [matchGroups, beq_iff_eq] at h
      intro c hc
      rcases hexRun_chars n cs [] h c hc with hx | hx
      · exact Or.inl hx
      · simp at hx
    | m :: rest =>
      simp only [matchGroups] at h
      rcases hr : hexRun n cs with _ | r
      · rw [hr] at h; simp at h
      · rw [hr] at h
        rcases r with _ | ⟨c2, cs2⟩
        · simp at h
        · simp only [Bool.and_eq_true, beq_iff_eq] at h
          obtain ⟨rfl, h2⟩ := h
          intro c hc
          rcases hexRun_chars n cs ('-' :: cs2) hr c hc with hx | hx
          · exact Or.inl hx
          · rcases List.mem_cons.mp hx with rfl | hx'
            · exact Or.inr rfl
            · exact ih cs2 h2 c hx'

/-! ## Claim theorems -/

/-- C4: for every configuration whose `EncryptionOperation` equals
`QueryEncryptionStatus`, each of `validate_key_vault_params`,
`validate_volume_type`, `validate_aad`, `validate_memory_os_encryption` and
`is_supported_os` returns without raising (result `.ok ()`), regardless of all
other configuration keys; the validators are pure in this embedding, so no
state is mutated. -/
theorem c4_query_status_validators_are_noops (ps : PublicSettings)
    (encryption_status : EncryptionStatus) (env : SysEnv) (dp : DistroPatcher)
    (data : SupportedOSData)
    (h : ps.encryptionOperation = some CommonVariables.QueryEncryptionStatus) :
    validate_key_vault_params ps = ([], .ok ())
    ∧ (validate_volume_type ps).2 = .ok ()
    ∧ validate_aad ps = .ok ()
    ∧ validate_memory_os_encryption ps encryption_status env = ([], .ok ())
    ∧ (is_supported_os ps dp encryption_status data).2 = .ok () := by
  have he : isEnableOperation ps.encryptionOperation = false := by
    simp [isEnableOperation, h, CommonVariables.QueryEncryptionStatus,
      CommonVariables.EnableEncryption, CommonVariables.EnableEncryptionFormat,
      CommonVariables.EnableEncryptionFormatAll]
  refine ⟨?_, ?_, ?_, ?_, ?_⟩
  · simp [validate_key_vault_params, he]
  · simp [validate_volume_type, h]
  · simp [validate_aad, he]
  · simp [validate_memory_os_encryption, he]
  · simp [is_supported_os, h]

/-- C4 witness: the concrete query-status configuration with every other key
absent. -/
theorem c4_query_status_validators_are_noops_witness :
    validate_key_vault_params { encryptionOperation := some CommonVariables.QueryEncryptionStatus } = ([], .ok ())
    ∧ (validate_volume_type { encryptionOperation := some CommonVariables.QueryEncryptionStatus }).2 = .ok ()
    ∧ validate_aad { encryptionOperation := some CommonVariables.QueryEncryptionStatus } = .ok ()
    ∧ validate_memory_os_encryption { encryptionOperation := some CommonVariables.QueryEncryptionStatus } {} {} = ([], .ok ())
    ∧ (is_supported_os { encryptionOperation := some CommonVariables.QueryEncryptionStatus }
        ⟨"ubuntu", "18.04", "4.15"⟩ {} []).2 = .ok () :=
  c4_query_status_validators_are_noops _ {} {} ⟨"ubuntu", "18.04", "4.15"⟩ [] rfl

/-- C9: for an enable operation with the `VolumeType` key absent,
`validate_volume_type` and `validate_memory_os_encryption` are not no-ops and
do not raise the typed precheck exception: both call `.lower()` on the missing
value and surface the untyped `AttributeError`. -/
theorem c9_enable_missing_volume_type_attribute_error (ps : PublicSettings)
    (encryption_status : EncryptionStatus) (env : SysEnv)
    (hop : isEnableOperation ps.encryptionOperation = true)
    (hvt : ps.volumeType = none) :
    (validate_volume_type ps).2 = .error (.attributeError noneLowerMsg)
    ∧ (validate_memory_os_encryption ps encryption_status env).2 =
        .error (.attributeError noneLowerMsg) := by
  constructor
  · simp [validate_volume_type, enable_not_query ps.encryptionOperation hop, hvt]
  · simp [validate_memory_os_encryption, hop, hvt]

/-- C9 witness: `EnableEncryption` requested with no `VolumeType` key. -/
theorem c9_enable_missing_volume_type_attribute_error_witness :
    (validate_volume_type { encryptionOperation := some CommonVariables.EnableEncryption }).2 =
      .error (.attributeError noneLowerMsg)
    ∧ (validate_memory_os_encryption { encryptionOperation := some CommonVariables.EnableEncryption } {} {}).2 =
        .error (.attributeError noneLowerMsg) :=
  c9_enable_missing_volume_type_attribute_error _ {} {} (by decide) rfl

/-- C10: for an enable operation with no truthy KEK URL,
`validate_key_vault_params` is exactly the vault-URL check: it emits no log
line (in particular not the default-algorithm line), never raises the
unrecognized-algorithm failure, and its outcome is independent of the
`KeyEncryptionAlgorithm` value; concretely it succeeds with an unrecognized
algorithm present. -/
theorem c10_kek_absent_algorithm_not_examined (ps : PublicSettings)
    (alg : Option String)
    (hop : isEnableOperation ps.encryptionOperation = true)
    (hkek : truthy ps.keyEncryptionKeyURL = false) :
    validate_key_vault_params ps =
      ([], check_kv_url ps.keyVaultURL "Encountered an error while checking the Key Vault URL")
    ∧ validate_key_vault_params { ps with keyEncryptionAlgorithm := alg } =
        validate_key_vault_params ps
    ∧ validate_key_vault_params
        { encryptionOperation := some CommonVariables.EnableEncryption,
          keyVaultURL := some "https://myvault.vault.azure.net",
          keyEncryptionAlgorithm := some "garbage" } = ([], .ok ()) := by
  have key : ∀ q : PublicSettings, isEnableOperation q.encryptionOperation = true →
      truthy q.keyEncryptionKeyURL = false →
      validate_key_vault_params q =
        ([], check_kv_url q.keyVaultURL "Encountered an error while checking the Key Vault URL") := by
    intro q hq hk
    simp only [validate_key_vault_params, hq, Bool.not_true, if_false, hk]
    rcases check_kv_url q.keyVaultURL "Encountered an error while checking the Key Vault URL"
      with e | u
    · rfl
    · rfl
  refine ⟨key ps hop hkek, ?_, by decide⟩
  rw [key ps hop hkek, key { ps with keyEncryptionAlgorithm := alg } hop hkek]

/-- C10 witness: enable operation, valid vault URL, absent KEK URL, garbage
algorithm. -/
theorem c10_kek_absent_algorithm_not_examined_witness :
    validate_key_vault_params
      { encryptionOperation := some CommonVariables.EnableEncryption,
        keyVaultURL := some "https://myvault.vault.azure.net",
        keyEncryptionAlgorithm := some "garbage" } =
      ([], check_kv_url (some "https://myvault.vault.azure.net")
            "Encountered an error while checking the Key Vault URL") :=
  (c10_kek_absent_algorithm_not_examined
    { encryptionOperation := some CommonVariables.EnableEncryption,
      keyVaultURL := some "https://myvault.vault.azure.net",
      keyEncryptionAlgorithm := some "garbage" } none (by decide) (by decide)).1

/-- C7: for an enable operation with a truthy `AADClientID`, `validate_aad`
succeeds exactly when the value matches the canonical 8-4-4-4-12 hex-group
UUID pattern case-insensitively; when the value contains a Unicode curly
quotation mark the failure message carries the extra removal hint; concretely
the canonical example passes and "not-a-uuid" fails without the hint. -/
theorem c7_aad_uuid_validation (ps : PublicSettings) (op aad : String)
    (hop : ps.encryptionOperation = some op)
    (hen : op = CommonVariables.EnableEncryption ∨ op = CommonVariables.EnableEncryptionFormat
      ∨ op = CommonVariables.EnableEncryptionFormatAll)
    (haad : ps.aadClientID = some aad) (hne : (aad == "") = false) :
    (validate_aad ps = .ok () ↔ matchesUuidPattern aad = true)
    ∧ ((aad.data.contains leftCurlyQuote || aad.data.contains rightCurlyQuote) = true →
        validate_aad ps = .error (.exc
          (("AADClientID value is missing or invalid." ++ " Please remove Unicode quotation marks.")
            ++ "\nActual Value: [" ++ aad
            ++ "]\nExpected Format: [nnnnnnnn-nnnn-nnnn-nnnn-nnnnnnnnnnnn]")))
    ∧ validate_aad
        { encryptionOperation := some CommonVariables.EnableEncryption,
          aadClientID := some "12345678-1234-1234-1234-123456789012" } = .ok ()
    ∧ validate_aad
        { encryptionOperation := some CommonVariables.EnableEncryption,
          aadClientID := some "not-a-uuid" } =
      .error (.exc ("AADClientID value is missing or invalid."
        ++ "\nActual Value: [" ++ "not-a-uuid"
        ++ "]\nExpected Format: [nnnnnnnn-nnnn-nnnn-nnnn-nnnnnnnnnnnn]")) := by
  have hopE : isEnableOperation ps.encryptionOperation = true := by
    rcases hen with h | h | h <;> subst h <;> simp [isEnableOperation, hop]
  have htr : truthy (some aad) = true := by
    simp only [truthy, bne, hne, Bool.not_false]
  refine ⟨?_, ?_, by decide, by decide⟩
  · by_cases hm : matchesUuidPattern aad
    · simp [validate_aad, hopE, htr, haad, hm]
    · simp [validate_aad, hopE, htr, haad, hm]
  · intro hq
    have hq' : leftCurlyQuote ∈ aad.data ∨ rightCurlyQuote ∈ aad.data := by
      simpa using hq
    have hm : matchesUuidPattern aad = false := by
      rw [Bool.eq_false_iff]
      intro hmm
      rcases hq' with h1 | h1
      · rcases matchGroups_chars _ _ hmm _ h1 with hx | hx
        · exact absurd hx (by decide)
        · exact absurd hx (by decide)
      · rcases matchGroups_chars _ _ hmm _ h1 with hx | hx
        · exact absurd hx (by decide)
        · exact absurd hx (by decide)
    simp [validate_aad, hopE, htr, haad, hm, hq']

/-- C7 witness: the concrete enable-operation configuration with the invalid
value "not-a-uuid". -/
theorem c7_aad_uuid_validation_witness :
    validate_aad
      { encryptionOperation := some CommonVariables.EnableEncryption,
        aadClientID := some "not-a-uuid" } = .ok ()
    ↔ matchesUuidPattern "not-a-uuid" = true :=
  (c7_aad_uuid_validation
    { encryptionOperation := some CommonVariables.EnableEncryption,
      aadClientID := some "not-a-uuid" }
    CommonVariables.EnableEncryption "not-a-uuid" rfl (Or.inl rfl) rfl (by decide)).1

/-- C6 counterexample: with exactly `rootvg-varlv` absent, the raised error
carries the fixed generic LVM-prerequisites message, and that message does not
contain the missing volume's name anywhere — the claim that the failure names
the missing volume is false; the name only appears in the log line. -/
theorem c6_lvm_error_message_does_not_name_missing_lv :
    validate_lvm_os
      { encryptionOperation := some CommonVariables.EnableEncryption, volumeType := some "OS" }
      { rootIsLvm := true, lvPresent := fun lv => lv != "rootvg-varlv" } =
      (["LVM OS scheme is missing LV [rootvg-varlv]"],
       .error (.exc "LVM OS disk layout does not satisfy prerequisites ( see https://aka.ms/adelvm )"))
    ∧ containsSub "rootvg-varlv".data
        "LVM OS disk layout does not satisfy prerequisites ( see https://aka.ms/adelvm )".data = false :=
  ⟨by decide, by decide⟩

/-- C6 (amended): under an encryption operation and a non-Data volume type with
the root filesystem on LVM, `validate_lvm_os` fails with the fixed generic
error whenever at least one of the six required logical volumes is absent,
logging a line naming each missing volume; with all six present it does not
fail. -/
theorem c6_lvm_missing_volumes_logged_and_fail (ps : PublicSettings) (env : SysEnv)
    (op vt : String)
    (hop : ps.encryptionOperation = some op) (hop1 : (op == "") = false)
    (hop2 : (strLower op == strLower CommonVariables.QueryEncryptionStatus) = false)
    (hvt : ps.volumeType = some vt) (hvt1 : (vt == "") = false)
    (hvt2 : (strLower vt == strLower CommonVariables.VolumeTypeData) = false)
    (hlvm : env.rootIsLvm = true) :
    ((∃ lv ∈ lvlist, env.lvPresent lv = false) →
      (validate_lvm_os ps env).2 =
        .error (.exc "LVM OS disk layout does not satisfy prerequisites ( see https://aka.ms/adelvm )")
      ∧ ∀ lv ∈ lvlist, env.lvPresent lv = false →
          ("LVM OS scheme is missing LV [" ++ lv ++ "]") ∈ (validate_lvm_os ps env).1)
    ∧ ((∀ lv ∈ lvlist, env.lvPresent lv = true) → validate_lvm_os ps env = ([], .ok ())) := by
  have hred : validate_lvm_os ps env =
      (if !(lvlist.filter (fun lvname => !(env.lvPresent lvname))).isEmpty then
        ((lvlist.filter (fun lvname => !(env.lvPresent lvname))).map
           (fun lvname => "LVM OS scheme is missing LV [" ++ lvname ++ "]"),
         .error (.exc "LVM OS disk layout does not satisfy prerequisites ( see https://aka.ms/adelvm )"))
      else ([], .ok ())) := by
    simp only [validate_lvm_os, hop, hop1, hop2, hvt, hvt1, hvt2, hlvm, Bool.false_eq_true,
      if_false, if_true]
  constructor
  · rintro ⟨lv, hmem, hfalse⟩
    have hmem2 : lv ∈ lvlist.filter (fun lvname => !(env.lvPresent lvname)) :=
      List.mem_filter.mpr ⟨hmem, by simp [hfalse]⟩
    have hne : (lvlist.filter (fun lvname => !(env.lvPresent lvname))).isEmpty = false := by
      rcases hfl : lvlist.filter (fun lvname => !(env.lvPresent lvname)) with _ | ⟨a, as⟩
      · rw [hfl] at hmem2; cases hmem2
      · rfl
    rw [hred]
    simp only [hne, Bool.not_false, if_true]
    refine ⟨by trivial, ?_⟩
    intro lv' hmem' hfalse'
    exact List.mem_map.mpr ⟨lv', List.mem_filter.mpr ⟨hmem', by simp [hfalse']⟩, rfl⟩
  · intro hall
    have hnil : lvlist.filter (fun lvname => !(env.lvPresent lvname)) = [] := by
      rw [List.filter_eq_nil_iff]
      intro a ha
      simp [hall a ha]
    rw [hred, hnil]
    rfl

/-- C6 witness: enable operation, OS volume type, root on LVM, exactly
`rootvg-varlv` absent — the check fails and the log names that volume. -/
theorem c6_lvm_missing_volumes_logged_and_fail_witness :
    (validate_lvm_os
        { encryptionOperation := some CommonVariables.EnableEncryption, volumeType := some "OS" }
        { rootIsLvm := true, lvPresent := fun lv => lv != "rootvg-varlv" }).2 =
      .error (.exc "LVM OS disk layout does not satisfy prerequisites ( see https://aka.ms/adelvm )")
    ∧ ("LVM OS scheme is missing LV [" ++ "rootvg-varlv" ++ "]") ∈
        (validate_lvm_os
          { encryptionOperation := some CommonVariables.EnableEncryption, volumeType := some "OS" }
          { rootIsLvm := true, lvPresent := fun lv => lv != "rootvg-varlv" }).1 := by
  have h := (c6_lvm_missing_volumes_logged_and_fail
      { encryptionOperation := some CommonVariables.EnableEncryption, volumeType := some "OS" }
      { rootIsLvm := true, lvPresent := fun lv => lv != "rootvg-varlv" }
      CommonVariables.EnableEncryption "OS" rfl (by decide) (by decide) rfl (by decide) (by decide)
      rfl).1 ⟨"rootvg-varlv", by decide, by decide⟩
  exact ⟨h.1, h.2 "rootvg-varlv" (by decide) (by decide)⟩

/-- C1: when the OS-support check actually runs (not query-status, non-Data
volume type, OS volume NotEncrypted) and the distro name is in the matrix, the
outcome is decided by the first entry, in file order, whose version-prefix
starts the running version: that entry's Kernel minimum is enforced
unconditionally (later entries, including ones that would match with no kernel
requirement, are irrelevant), and when no entry's prefix matches the check
fails with the unsupported-distro-version error. -/
theorem c1_supported_os_takes_first_matching_entry (ps : PublicSettings)
    (dp : DistroPatcher) (encryption_status : EncryptionStatus)
    (data : SupportedOSData) (versions : List VersionEntry) (volume_type : String)
    (hop : (ps.encryptionOperation == some CommonVariables.QueryEncryptionStatus) = false)
    (hvt : ps.volumeType = some volume_type)
    (hvd : (strLower volume_type == strLower CommonVariables.VolumeTypeData) = false)
    (hos : encryption_status.os = "NotEncrypted")
    (hlk : List.lookup dp.distro_name data = some versions) :
    (∀ pre entry post, versions = pre ++ entry :: post →
      (∀ v ∈ pre, strStartsWith dp.distro_version v.Version = false) →
      strStartsWith dp.distro_version entry.Version = true →
      (is_supported_os ps dp encryption_status data).2 =
        (match entry.Kernel with
         | some kmin =>
           if looseVersionLt dp.kernel_version kmin then
             Except.error (.exc ("Kernel version " ++ dp.kernel_version
               ++ " is not supported. Upgrade to kernel version " ++ kmin))
           else Except.ok ()
         | none => Except.ok ()))
    ∧ ((∀ v ∈ versions, strStartsWith dp.distro_version v.Version = false) →
      (is_supported_os ps dp encryption_status data).2 =
        .error (.exc ("Distro " ++ dp.distro_name ++ " " ++ dp.distro_version
          ++ " is not supported for OS encryption"))) := by
  constructor
  · intro pre entry post hsplit hpre hentry
    have hfind : versions.find? (fun version => strStartsWith dp.distro_version version.Version)
        = some entry := by
      rw [hsplit]
      exact find?_first_match _ pre entry post hpre hentry
    simp only [is_supported_os, hop, Bool.false_eq_true, if_false, hvt, hvd, hos, hlk, hfind,
      bne_self_eq_false]
    rcases entry.Kernel with _ | kmin
    · rfl
    · by_cases hk : looseVersionLt dp.kernel_version kmin = true
      · simp [hk]
      · simp [Bool.eq_false_iff.mpr hk]
  · intro hall
    have hfind : versions.find? (fun version => strStartsWith dp.distro_version version.Version)
        = none := find?_all_false _ _ hall
    simp only [is_supported_os, hop, Bool.false_eq_true, if_false, hvt, hvd, hos, hlk, hfind,
      bne_self_eq_false]

/-- C1 witness: ubuntu 18.04 with kernel 4.4 against a matrix whose first
matching entry requires kernel 4.15 while a later entry ("18", no Kernel key)
would also match — the first match wins and the check fails. -/
theorem c1_supported_os_takes_first_matching_entry_witness :
    (is_supported_os
        { encryptionOperation := some CommonVariables.EnableEncryption, volumeType := some "OS" }
        ⟨"ubuntu", "18.04", "4.4"⟩ {}
        [("ubuntu", [{ Version := "18.04", Kernel := some "4.15" }, { Version := "18" }])]).2 =
      .error (.exc ("Kernel version " ++ "4.4"
        ++ " is not supported. Upgrade to kernel version " ++ "4.15")) := by
  have h := (c1_supported_os_takes_first_matching_entry
      { encryptionOperation := some CommonVariables.EnableEncryption, volumeType := some "OS" }
      ⟨"ubuntu", "18.04", "4.4"⟩ {}
      [("ubuntu", [{ Version := "18.04", Kernel := some "4.15" }, { Version := "18" }])]
      [{ Version := "18.04", Kernel := some "4.15" }, { Version := "18" }] "OS"
      (by decide) rfl (by decide) rfl (by decide)).1
      [] { Version := "18.04", Kernel := some "4.15" } [{ Version := "18" }] rfl
      (by intro v hv; cases hv) (by decide)
  rw [h]
  decide

/-- C8: the kernel comparison against a matrix Kernel minimum is
dotted-numeric, not lexical: "4.9" is below "4.10" under the LooseVersion
order (while the plain lexicographic character order puts "4.10" below
"4.9"), and a running kernel "4.9" against a minimum "4.10" makes
`is_supported_os` fail. -/
theorem c8_kernel_version_dotted_numeric_order :
    looseVersionLt "4.9" "4.10" = true
    ∧ lexLtChars "4.10".data "4.9".data = true
    ∧ (is_supported_os
        { encryptionOperation := some CommonVariables.EnableEncryption, volumeType := some "OS" }
        ⟨"centos", "7.4", "4.9"⟩ {}
        [("centos", [{ Version := "7.4", Kernel := some "4.10" }])]).2 =
      .error (.exc ("Kernel version " ++ "4.9"
        ++ " is not supported. Upgrade to kernel version " ++ "4.10")) :=
  ⟨by decide, by decide, by decide⟩

/-- C2: the fatal precheck executes its validators in the fixed order
key-vault, volume type, LVM, vfat kernel module, AAD, memory, OS support: the
list of validators reached is always a prefix of that order, the whole order
runs exactly when no validator fails, and whenever the volume-type check
fails the LVM and AAD validators are never reached; concretely a failing
volume type stops the sequence right after the volume-type step. -/
theorem c2_fatal_precheck_order_short_circuits (ps : PublicSettings)
    (encryption_status : EncryptionStatus) (dp : DistroPatcher) (env : SysEnv)
    (data : SupportedOSData) :
    ((precheck_for_fatal_failures ps encryption_status dp env data).1).isPrefixOf fatalOrder = true
    ∧ ((precheck_for_fatal_failures ps encryption_status dp env data).2 = .ok () →
        (precheck_for_fatal_failures ps encryption_status dp env data).1 = fatalOrder)
    ∧ (∀ e, (validate_volume_type ps).2 = .error e →
        FatalStep.lvm ∉ (precheck_for_fatal_failures ps encryption_status dp env data).1
        ∧ FatalStep.aad ∉ (precheck_for_fatal_failures ps encryption_status dp env data).1)
    ∧ precheck_for_fatal_failures
        { encryptionOperation := some CommonVariables.EnableEncryption,
          keyVaultURL := some "https://myvault.vault.azure.net",
          volumeType := some "Banana" }
        {} ⟨"ubuntu", "18.04", "4.15"⟩ {} [] =
      ([.keyVault, .volumeType],
       .error (.exc ("Unknown Volume Type: " ++ "Banana"
         ++ ", has to be one of [OS, Data, All]"))) := by
  refine ⟨?_, ?_, ?_, by decide⟩
  · unfold precheck_for_fatal_failures
    cases h1 : (validate_key_vault_params ps).2 <;>
      cases h2 : (validate_volume_type ps).2 <;>
        cases h3 : (validate_lvm_os ps env).2 <;>
          cases h4 : validate_vfat env <;>
            cases h5 : validate_aad ps <;>
              cases h6 : (validate_memory_os_encryption ps encryption_status env).2 <;>
                cases h7 : (is_supported_os ps dp encryption_status data).2 <;>
                  rfl
  · unfold precheck_for_fatal_failures
    cases h1 : (validate_key_vault_params ps).2 <;>
      cases h2 : (validate_volume_type ps).2 <;>
        cases h3 : (validate_lvm_os ps env).2 <;>
          cases h4 : validate_vfat env <;>
            cases h5 : validate_aad ps <;>
              cases h6 : (validate_memory_os_encryption ps encryption_status env).2 <;>
                cases h7 : (is_supported_os ps dp encryption_status data).2 <;>
                  intro hc <;>
                    first
                      | rfl
                      | exact Except.noConfusion hc
  · intro e he
    unfold precheck_for_fatal_failures
    cases h1 : (validate_key_vault_params ps).2
    · exact ⟨by simp, by simp⟩
    · rw [he]
      exact ⟨by simp, by simp⟩

/-- C5: the non-fatal precheck evaluates all three of the app-compat check,
the memory check, and the mount-scheme check on every invocation, and its
boolean result is true exactly when at least one of the three fired; it is a
total boolean function (never raises). -/
theorem c5_nonfatal_runs_all_three_and_aggregates_or (env : SysEnv) :
    (is_non_fatal_precheck_failure env).1 =
      [NonfatalCheck.appCompat, NonfatalCheck.memory, NonfatalCheck.mountScheme]
    ∧ ((is_non_fatal_precheck_failure env).2 = true ↔
        ((is_app_compat_issue_detected env).2 = true
          ∨ (is_insufficient_memory env).2 = true
          ∨ (is_unsupported_mount_scheme env).2 = true)) := by
  refine ⟨rfl, ?_⟩
  simp only [is_non_fatal_precheck_failure, Bool.or_eq_true]
  exact or_assoc

/-- C3: the mount-scheme detector fires exactly when, among the mount points
left after removing the fixed ignore list, some ordered pair of distinct
mount points `(a, b)` has `b` starting with the literal string `a`; the test
is raw string-prefix, so `["/mnt/data1", "/mnt/data10"]` is (falsely) flagged
although neither path is nested in the other. -/
theorem c3_mount_scheme_conflict_iff_string_prefix_pair (env : SysEnv) :
    ((is_unsupported_mount_scheme env).2 = true ↔
      ∃ a, a ∈ env.mounts.filter (fun m => !(ignorelist.contains m)) ∧
        ∃ b, b ∈ env.mounts.filter (fun m => !(ignorelist.contains m)) ∧
          a ≠ b ∧ strStartsWith b a = true)
    ∧ (is_unsupported_mount_scheme { mounts := ["/mnt/data1", "/mnt/data10"] }).2 = true := by
  refine ⟨?_, by decide⟩
  simp only [is_unsupported_mount_scheme, Bool.not_eq_true', List.isEmpty_eq_false_iff_exists_mem,
    List.mem_flatMap, List.mem_map, List.mem_filter, Bool.and_eq_true, bne_iff_ne, ne_eq]
  constructor
  · rintro ⟨x, a, ⟨ha, hai⟩, b, ⟨⟨hb, hbi⟩, hab, hpre⟩, rfl⟩
    exact ⟨a, ⟨ha, hai⟩, b, ⟨hb, hbi⟩, hab, hpre⟩
  · rintro ⟨a, ⟨ha, hai⟩, b, ⟨hb, hbi⟩, hab, hpre⟩
    exact ⟨"WARNING: unsupported mount scheme [" ++ a ++ " " ++ b ++ "]",
      a, ⟨ha, hai⟩, b, ⟨⟨hb, hbi⟩, hab, hpre⟩, rfl⟩

end CheckUtil

